import Mathlib

/-!
A verification development for the ftm-saavnbot repository (src/bot.py).

The Python functions relevant to the claims are shallowly embedded as
executable Lean definitions.  External effects (HTTP downloads, Telegram
sends) are abstracted into oracle parameters (Env, HttpResponse); machine
state (progress counters, the processed-ID set) is passed explicitly.
Definition names follow the Python source where Lean allows it.
-/

/-! ## Python-style string primitives -/

/-- Whitespace characters recognised by the common Python string operations
(ASCII subset of the whitespace matched by str.strip and regex-\s). -/
def isPySpace (c : Char) : Bool :=
  c = ' ' || c = '\t' || c = '\n' || c = '\r' || c = '\x0b' || c = '\x0c'

/-- Python str.lower, restricted to the ASCII case mapping (all strings the
bot compares this way are ASCII). -/
def pyLower (s : String) : String :=
  String.mk (s.toList.map Char.toLower)

/-- Python str.strip(). -/
def pyStrip (s : String) : String :=
  String.mk (((s.toList.dropWhile isPySpace).reverse.dropWhile isPySpace).reverse)

/-- Python str.rstrip(). -/
def pyRstrip (s : String) : String :=
  String.mk ((s.toList.reverse.dropWhile isPySpace).reverse)

/-- Does the first list start with the second (character-exact)? -/
def startsWithList : List Char → List Char → Bool
  | _, [] => true
  | [], _ :: _ => false
  | c :: cs, p :: ps => c = p && startsWithList cs ps

/-- Does the list contain the pattern as a contiguous sublist
(Python operator in on strings)? -/
def containsList : List Char → List Char → Bool
  | [], pat => startsWithList [] pat
  | c :: cs, pat => startsWithList (c :: cs) pat || containsList cs pat

/-- Python pat in s (substring containment). -/
def strContains (s pat : String) : Bool :=
  containsList s.toList pat.toList

/-- Python s.startswith(pat). -/
def strStarts (s pat : String) : Bool :=
  startsWithList s.toList pat.toList

/-- Python s.endswith(pat). -/
def strEnds (s pat : String) : Bool :=
  startsWithList s.toList.reverse pat.toList.reverse

/-! ## JSON-ish values

The upstream APIs feed Python dicts whose URL-carrying fields may be a
string, a list, or something else entirely.  PyVal models exactly the
distinctions bot.py makes: isinstance(x, str), isinstance(x, list), and
truthiness. -/

/-- A JSON-ish Python value as far as get_download_urls distinguishes them:
a string, a list, or any other value (dict, number, ...) of which only the
truthiness matters. -/
inductive PyVal where
  | vStr (s : String)
  | vList (xs : List PyVal)
  | vOther (truthy : Bool)

/-- Python truthiness for a PyVal. -/
def PyVal.truthy : PyVal → Bool
  | .vStr s => s ≠ ""
  | .vList xs => !xs.isEmpty
  | .vOther t => t

/-- Is the value one of the literal strings true / false that the
quality-field guard filters out? -/
def PyVal.isBoolWord : PyVal → Bool
  | .vStr s => s = "true" || s = "false"
  | _ => false

/-- Is the value a Python str? -/
def PyVal.isStr : PyVal → Bool
  | .vStr _ => true
  | _ => false

/-! ## Quality ranking (bot.py lines 581-619, sort_urls_by_quality) -/

/-- get_quality_score from sort_urls_by_quality: substring and extension
sniffing on the lowercased URL, exactly in the source order of checks. -/
def get_quality_score (url : String) : Nat :=
  let u := pyLower url
  if strContains u "320" || strContains u "_h." || strContains u "high" then 320
  else if strContains u "256" then 256
  else if strContains u "192" then 192
  else if strContains u "160" || strContains u "_m." || strContains u "medium" then 160
  else if strContains u "128" then 128
  else if strContains u "96" || strContains u "_l." || strContains u "low" then 96
  else if strContains u "64" then 64
  else if strEnds u ".flac" then 400
  else if strEnds u ".m4a" || strEnds u ".aac" then 200
  else if strEnds u ".mp3" then 150
  else 100

/-- The ordering used by sorted(urls, key=get_quality_score, reverse=True):
a before b when the score of a is at least the score of b. -/
def qualityGE (a b : String) : Prop :=
  get_quality_score b ≤ get_quality_score a

instance : DecidableRel qualityGE := fun _ _ => Nat.decLe _ _

instance : IsTotal String qualityGE :=
  ⟨fun a b => (Nat.le_total (get_quality_score a) (get_quality_score b)).elim Or.inr Or.inl⟩

instance : IsTrans String qualityGE :=
  ⟨fun _ _ _ hab hbc => Nat.le_trans hbc hab⟩

/-- sort_urls_by_quality: Python sorted(..., key=get_quality_score,
reverse=True) is the stable descending sort by score; insertion sort with
the qualityGE relation computes the same list. -/
def sort_urls_by_quality (urls : List String) : List String :=
  List.insertionSort qualityGE urls

/-! ## Download-URL extraction (bot.py lines 540-579, get_download_urls) -/

/-- The fields of a song record that the modelled functions read.  The three
quality fields are named 320kbps / 160kbps / 96kbps in the JSON; Lean
identifiers cannot start with a digit, hence the kbps-first spelling. -/
structure Song where
  id : Option String := none
  song_id : Option String := none
  songId : Option String := none
  downloadUrl : Option PyVal := none
  kbps320 : Option PyVal := none
  kbps160 : Option PyVal := none
  kbps96 : Option PyVal := none
  media_url : Option PyVal := none

/-- The downloadUrl branch of get_download_urls: a list keeps its truthy
elements (no isinstance check there), a truthy string is kept whole. -/
def urlsFromDownloadUrl : Option PyVal → List PyVal
  | some (.vList xs) => xs.filter PyVal.truthy
  | some (.vStr s) => if s ≠ "" then [.vStr s] else []
  | some (.vOther _) => []
  | none => []

/-- One quality-specific field (320kbps / 160kbps / 96kbps): guarded by
truthiness and the two literal strings true / false, then a list keeps its
truthy string elements, and a string is kept when it starts with http. -/
def urlsFromQualityField : Option PyVal → List PyVal
  | some v =>
    if v.truthy && !v.isBoolWord then
      match v with
      | .vList xs => xs.filter (fun u => u.truthy && u.isStr)
      | .vStr s => if strStarts s "http" then [.vStr s] else []
      | .vOther _ => []
    else []
  | none => []

/-- The media_url branch: a list keeps its truthy string elements, a truthy
string is kept whole. -/
def urlsFromMediaUrl : Option PyVal → List PyVal
  | some (.vList xs) => xs.filter (fun u => u.truthy && u.isStr)
  | some (.vStr s) => if s ≠ "" then [.vStr s] else []
  | some (.vOther _) => []
  | none => []

/-- The raw urls list accumulated by get_download_urls before validation. -/
def collected_urls (song : Song) : List PyVal :=
  urlsFromDownloadUrl song.downloadUrl
    ++ urlsFromQualityField song.kbps320
    ++ urlsFromQualityField song.kbps160
    ++ urlsFromQualityField song.kbps96
    ++ urlsFromMediaUrl song.media_url

/-- The validation loop of get_download_urls: keep truthy strings starting
with http, dropping any URL already seen (first occurrence wins). -/
def filter_valid_urls : List PyVal → List String → List String
  | [], _ => []
  | .vStr s :: rest, seen =>
    if s ≠ "" && strStarts s "http" && !seen.contains s then
      s :: filter_valid_urls rest (s :: seen)
    else
      filter_valid_urls rest seen
  | .vList _ :: rest, seen => filter_valid_urls rest seen
  | .vOther _ :: rest, seen => filter_valid_urls rest seen

/-- get_download_urls: collect candidate URLs from every upstream shape,
validate and deduplicate them, then sort by quality (highest first). -/
def get_download_urls (song : Song) : List String :=
  sort_urls_by_quality (filter_valid_urls (collected_urls song) [])

/-! ## File download (bot.py lines 621-641, download_file) -/

/-- self.max_file_size (50 MB). -/
def max_file_size : Nat := 50 * 1024 * 1024

/-- An HTTP response as download_file observes it: whether
raise_for_status passes, the advertised content-length header when present,
and the sizes of the body chunks iter_content yields (each at most 8192). -/
structure HttpResponse where
  ok : Bool
  contentLength : Option Nat
  chunks : List Nat
  deriving Repr

/-- download_file: returns (success, bytes written to the target path).
A failed status check aborts with nothing written; a declared
content-length above max_file_size aborts before the file is opened;
otherwise every received chunk is written - the body loop performs no
size check of its own. -/
def download_file (resp : HttpResponse) : Bool × Nat :=
  if !resp.ok then (false, 0)
  else
    match resp.contentLength with
    | some n => if n > max_file_size then (false, 0) else (true, resp.chunks.sum)
    | none => (true, resp.chunks.sum)

/-! ## Identifier classification (bot.py lines 278-280 and 998-1031) -/

/-- is_album_id: the full-string regex match of at least six digits. -/
def is_album_id (s : String) : Bool :=
  decide (6 ≤ s.toList.length) && s.toList.all Char.isDigit

/-- Which resolution endpoint process_id picks for an identifier. -/
inductive Route where
  | album
  | music
  deriving Repr, DecidableEq

/-- The routing decision of process_id (line 1005): numeric identifiers of
length at least six go to the albums endpoint, everything else to the songs
endpoint. -/
def process_id_route (s : String) : Route :=
  if is_album_id s then .album else .music

/-! ## Caption formatting (bot.py lines 643-669 and 717-757) -/

/-- Python truthiness of an optional string field fetched with dict.get:
a missing key and the empty string are both falsy. -/
def optStrTruthy (o : Option String) : Bool :=
  o.getD "" ≠ ""

/-- Python truthiness of an optional integer field: missing and zero are
falsy. -/
def optIntTruthy (o : Option Int) : Bool :=
  o.getD 0 ≠ 0

/-- song_id_to_music_id: replace underscores with hyphens (the empty-string
guard in the source returns the input unchanged, which the map also does). -/
def song_id_to_music_id (song_id : String) : String :=
  String.mk (song_id.toList.map (fun c => if c = '_' then '-' else c))

/-- Zero-padded two-digit rendering of the seconds part, as the Python
format spec 02d produces for values below 100. -/
def pad2 (n : Nat) : String :=
  if n < 10 then "0" ++ toString n else toString n

/-- format_duration on the integer-seconds path: zero and negative values
render as Unknown, otherwise minutes:seconds with the seconds zero-padded.
(The string-input branches of the source are not exercised by the callers
modelled here, which pass duration_for_file, an integer or missing.) -/
def format_duration (d : Int) : String :=
  if d = 0 then "Unknown"
  else if d ≤ 0 then "Unknown"
  else toString (d.toNat / 60) ++ ":" ++ pad2 (d.toNat % 60)

/-- The caption metadata dict, with the fields format_caption reads.  String
fields carry Option String (dict.get misses become none); year and duration
are the integers the callers store there. -/
structure CaptionMeta where
  songId : Option String := none
  musicId : Option String := none
  albumId : Option String := none
  year : Option Int := none
  language : Option String := none
  duration : Option Int := none

/-- format_caption: append one labelled line per truthy field, in the fixed
source order (song/music ID, album, year, language, duration), then rstrip
the trailing newline.  A songId takes precedence over a musicId; for an
integer duration the inner str(duration) != Unknown guard of the source is
always true, so it is not modelled. -/
def format_caption (m : CaptionMeta) : String :=
  let caption := ""
  let caption :=
    if optStrTruthy m.songId then
      caption ++ "🆔 Music ID: " ++ song_id_to_music_id (m.songId.getD "") ++ "\n"
    else if optStrTruthy m.musicId then
      caption ++ "🆔 Music ID: " ++ m.musicId.getD "" ++ "\n"
    else caption
  let caption :=
    if optStrTruthy m.albumId then caption ++ "💽 Album: " ++ m.albumId.getD "" ++ "\n"
    else caption
  let caption :=
    if optIntTruthy m.year then caption ++ "📅 Year: " ++ toString (m.year.getD 0) ++ "\n"
    else caption
  let caption :=
    if optStrTruthy m.language then caption ++ "🌐 Language: " ++ m.language.getD "" ++ "\n"
    else caption
  let caption :=
    if optIntTruthy m.duration then
      caption ++ "⏱ Duration: " ++ format_duration (m.duration.getD 0) ++ "\n"
    else caption
  pyRstrip caption

/-! ## Free-text ID extraction (bot.py lines 175-280, extract_ids_from_text
and extract_id_from_url)

The regular expressions of the source are hand-compiled to character-list
matchers.  Every character class appearing next to a starred or plussed
class is disjoint from it, so each pattern matches deterministically and
the greedy/lazy semantics reduce to maximal/minimal runs as implemented
below. -/

/-- The character class [a-zA-Z0-9-_] used for music identifiers. -/
def isIdChar (c : Char) : Bool :=
  c.isAlpha || c.isDigit || c = '-' || c = '_'

/-- The colon class [:：] used after field labels. -/
def isColonChar (c : Char) : Bool :=
  c = ':' || c = '：'

/-- Match a case-insensitive literal at the head of the input, returning the
rest (regex-IGNORECASE literal). -/
def dropLitCI : List Char → List Char → Option (List Char)
  | [], cs => some cs
  | _ :: _, [] => none
  | p :: ps, c :: cs => if p.toLower = c.toLower then dropLitCI ps cs else none

/-- Consume the maximal whitespace run, requiring at least one character
(regex-\s+ followed by a non-whitespace pattern). -/
def dropWs1 : List Char → Option (List Char)
  | [] => none
  | c :: rest => if isPySpace c then some (rest.dropWhile isPySpace) else none

/-- Consume the maximal whitespace run, possibly empty (regex-\s* followed
by a non-whitespace pattern). -/
def dropWs (cs : List Char) : List Char :=
  cs.dropWhile isPySpace

/-- Consume one colon character. -/
def dropColon : List Char → Option (List Char)
  | [] => none
  | c :: rest => if isColonChar c then some rest else none

/-- Capture the maximal run of characters in the class, requiring a minimal
length (a greedy counted class at the end of a pattern). -/
def captureRun (p : Char → Bool) (minLen : Nat) (cs : List Char) : Option String :=
  let run := cs.takeWhile p
  if minLen ≤ run.length then some (String.mk run) else none

/-- Try a matcher at every start position, leftmost first (re.search). -/
def searchPat (m : List Char → Option String) : List Char → Option String
  | [] => m []
  | c :: cs =>
    match m (c :: cs) with
    | some r => some r
    | none => searchPat m cs

/-- Try each pattern over the whole line, in order, keeping the first
pattern that matches anywhere (the for/break loops of the source). -/
def tryPats : List (List Char → Option String) → List Char → Option String
  | [], _ => none
  | p :: ps, cs =>
    match searchPat p cs with
    | some r => some r
    | none => tryPats ps cs

/-- The common tail of the music-ID patterns:
optional whitespace, a colon, optional whitespace, then at least three
identifier characters (captured). -/
def musicTail (cs : List Char) : Option String :=
  (dropColon (dropWs cs)).bind fun cs => captureRun isIdChar 3 (dropWs cs)

/-- Pattern music-whitespace-id-colon-capture, at one position. -/
def musicP1At (cs : List Char) : Option String :=
  (dropLitCI "music".toList cs).bind fun cs =>
  (dropWs1 cs).bind fun cs =>
  (dropLitCI "id".toList cs).bind musicTail

/-- Pattern musicid-colon-capture, at one position. -/
def musicP2At (cs : List Char) : Option String :=
  (dropLitCI "musicid".toList cs).bind musicTail

/-- Pattern music_id-colon-capture, at one position. -/
def musicP3At (cs : List Char) : Option String :=
  (dropLitCI "music_id".toList cs).bind musicTail

/-- Pattern ID-emoji then music-whitespace-id-colon-capture, at one
position. -/
def musicP4At (cs : List Char) : Option String :=
  (dropLitCI "🆔".toList cs).bind fun cs => musicP1At (dropWs cs)

/-- The common tail of the album-ID patterns: optional whitespace, a colon,
optional whitespace, then at least six digits (captured). -/
def albumTail (cs : List Char) : Option String :=
  (dropColon (dropWs cs)).bind fun cs => captureRun Char.isDigit 6 (dropWs cs)

/-- Pattern album-colon-digits, at one position. -/
def albumP1At (cs : List Char) : Option String :=
  (dropLitCI "album".toList cs).bind albumTail

/-- Pattern albumid-colon-digits, at one position. -/
def albumP2At (cs : List Char) : Option String :=
  (dropLitCI "albumid".toList cs).bind albumTail

/-- Pattern album_id-colon-digits, at one position. -/
def albumP3At (cs : List Char) : Option String :=
  (dropLitCI "album_id".toList cs).bind albumTail

/-- Pattern disk-emoji then album-colon-digits, at one position. -/
def albumP4At (cs : List Char) : Option String :=
  (dropLitCI "💽".toList cs).bind fun cs => albumP1At (dropWs cs)

/-- The separator/formatting character class of the skip regex. -/
def isSepChar (c : Char) : Bool :=
  c = '=' || c = '-' || c = '_' || c = '#' || c = '*' || c = '🎵' || c = '👤'
    || c = '📅' || c = '🌐' || c = '⏱' || c = '🔗' || c = '🖼'

/-- Lines made only of separator/formatting characters are skipped. -/
def isSeparatorLine (cs : List Char) : Bool :=
  !cs.isEmpty && cs.all isSepChar

/-- The skip_words set of lines that are labels rather than identifiers. -/
def skip_words : List String :=
  ["music", "album", "song", "name", "year", "language", "duration",
   "image", "thumb", "download", "url", "id", "https", "http",
   "version", "caption", "format", "bot", "ftm", "title", "artist"]

/-- Header pattern music-note-emoji, whitespace, music, whitespace, digits,
end of line (anchored both sides). -/
def headerMusicAt (cs : List Char) : Bool :=
  match dropLitCI "🎵".toList cs with
  | none => false
  | some cs =>
    match dropLitCI "music".toList (dropWs cs) with
    | none => false
    | some cs => ((dropWs cs).dropWhile Char.isDigit).isEmpty

/-- Header patterns of the shape emoji, whitespace, label, whitespace,
colon (anchored at the start only). -/
def headerLabelAt (emoji label : String) (cs : List Char) : Bool :=
  match dropLitCI emoji.toList cs with
  | none => false
  | some cs =>
    match dropLitCI label.toList (dropWs cs) with
    | none => false
    | some cs => (dropColon (dropWs cs)).isSome

/-- Does the line match one of the eight header patterns (re.match, so all
are anchored at the start of the line)? -/
def isHeaderLine (cs : List Char) : Bool :=
  headerMusicAt cs
    || headerLabelAt "🎶" "title" cs
    || headerLabelAt "👤" "artist" cs
    || headerLabelAt "📅" "year" cs
    || headerLabelAt "🌐" "language" cs
    || headerLabelAt "⏱" "duration" cs
    || headerLabelAt "🔗" "url" cs
    || headerLabelAt "🖼" "thumb" cs

/-- The lazy dot-star-slash-capture tail of the two site URL patterns: find
the first slash followed by at least one identifier character, capture the
maximal identifier run after it. -/
def lazySlashCapture : List Char → Option String
  | [] => none
  | c :: cs =>
    if c = '/' then
      let run := cs.takeWhile isIdChar
      if run.isEmpty then lazySlashCapture cs else some (String.mk run)
    else lazySlashCapture cs

/-- Pattern jiosaavn.com slash anything slash capture, at one position. -/
def urlP1At (cs : List Char) : Option String :=
  (dropLitCI "jiosaavn.com/".toList cs).bind lazySlashCapture

/-- Pattern saavn.com slash anything slash capture, at one position. -/
def urlP2At (cs : List Char) : Option String :=
  (dropLitCI "saavn.com/".toList cs).bind lazySlashCapture

/-- Pattern id-equals-capture, at one position. -/
def urlP3At (cs : List Char) : Option String :=
  (dropLitCI "id=".toList cs).bind (captureRun isIdChar 1)

/-- extract_id_from_url: the three site patterns tried in order, each
searched across the whole text. -/
def extract_id_from_url (text : String) : Option String :=
  tryPats [urlP1At, urlP2At, urlP3At] text.toList

/-- Python str.isdigit restricted to ASCII: nonempty and all digits. -/
def pyIsDigit (cs : List Char) : Bool :=
  !cs.isEmpty && cs.all Char.isDigit

/-- The per-line body of extract_ids_from_text, for a stripped nonempty
line: formatted music-ID lines, then formatted album-ID lines, then the
skip filters, then standalone music IDs (non-numeric), standalone album IDs
(numeric, six or more digits), and finally URL extraction.  Each line
contributes at most one identifier. -/
def extract_from_line (line : String) : Option String :=
  let cs := line.toList
  match tryPats [musicP1At, musicP2At, musicP3At, musicP4At] cs with
  | some mid => some mid
  | none =>
    match tryPats [albumP1At, albumP2At, albumP3At, albumP4At] cs with
    | some aid => some aid
    | none =>
      if isSeparatorLine cs then none
      else if skip_words.contains (pyLower line) then none
      else if isHeaderLine cs then none
      else if 3 ≤ cs.length && cs.all isIdChar && !pyIsDigit cs then some line
      else if 6 ≤ cs.length && cs.all Char.isDigit then some line
      else extract_id_from_url line

/-- The ids list accumulated by the line loop of extract_ids_from_text,
before deduplication. -/
def raw_extracted_ids (text : String) : List String :=
  (text.splitOn "\n").foldl
    (fun acc l =>
      let line := pyStrip l
      if line = "" then acc
      else
        match extract_from_line line with
        | some i => acc ++ [i]
        | none => acc)
    []

/-- list(dict.fromkeys(ids)): drop every repeat of an already-seen element,
keeping first occurrences in order. -/
def dedupFirst (l : List String) : List String :=
  l.foldl (fun acc x => if x ∈ acc then acc else acc ++ [x]) []

/-- extract_ids_from_text: accumulate one candidate per line, then
deduplicate preserving first-seen order. -/
def extract_ids_from_text (text : String) : List String :=
  dedupFirst (raw_extracted_ids text)

/-- The position of the first occurrence of an element in a list (the
defining notion for first-seen order). -/
def firstIdx : List String → String → Nat
  | [], _ => 0
  | x :: xs, a => if x = a then 0 else firstIdx xs a + 1

/-! ## Pipeline state (bot.py lines 56-65, 768-996, 1562-1635)

The Telegram and HTTP effects are abstracted into an oracle Env: dlOk
answers what download_file returns for a given URL, sendOk whether the
send_audio call succeeds or raises.  Everything else - the counters, the
processed-ID set, which URLs are attempted for the audio file, whether an
upload happened, and which notification types go to the logs (audit)
channel - is tracked explicitly. -/

/-- The five progress_stats counters. -/
structure Stats where
  downloaded : Nat := 0
  duplicates : Nat := 0
  failed : Nat := 0
  skipped : Nat := 0
  processed : Nat := 0
  deriving Repr, DecidableEq

/-- The mutable bot state the modelled functions touch: the processed_songs
set (as a list with set semantics) and the counters. -/
structure BotState where
  processed_songs : List String := []
  stats : Stats := {}
  deriving Repr, DecidableEq

/-- The outcome oracle for processing one song: per-URL download success
and whether the Telegram send succeeds. -/
structure Env where
  dlOk : String → Bool
  sendOk : Bool

/-- What one song-processing call did: the resulting state, the identifiers
of songs uploaded to the dump channel (empty or a singleton), the audio
download URLs attempted in order, and the types of the notifications sent
to the logs (audit) channel. -/
structure SongResult where
  state : BotState
  uploads : List (Option String)
  attempted : List String
  audit : List String
  deriving Repr

/-- Python orelse on two optional strings: the first when truthy, else the
second. -/
def pyOr (a b : Option String) : Option String :=
  if a.getD "" ≠ "" then a else b

/-- The URL loop of process_song_from_album (lines 1592-1597): try each URL
in order until one downloads; returns the attempted urls in order and
whether one succeeded. -/
def try_urls (dlOk : String → Bool) : List String → List String × Bool
  | [] => ([], false)
  | u :: us =>
    if dlOk u then ([u], true)
    else (u :: (try_urls dlOk us).1, (try_urls dlOk us).2)

/-- Increment one Stats counter: the duplicates slot. -/
def bumpDuplicates (st : BotState) : BotState :=
  { st with stats := { st.stats with duplicates := st.stats.duplicates + 1 } }

/-- Increment one Stats counter: the skipped slot. -/
def bumpSkipped (st : BotState) : BotState :=
  { st with stats := { st.stats with skipped := st.stats.skipped + 1 } }

/-- Increment one Stats counter: the failed slot. -/
def bumpFailed (st : BotState) : BotState :=
  { st with stats := { st.stats with failed := st.stats.failed + 1 } }

/-- Increment one Stats counter: the downloaded slot. -/
def bumpDownloaded (st : BotState) : BotState :=
  { st with stats := { st.stats with downloaded := st.stats.downloaded + 1 } }

/-- Increment one Stats counter: the processed slot. -/
def bumpProcessed (st : BotState) : BotState :=
  { st with stats := { st.stats with processed := st.stats.processed + 1 } }

/-- Lines 798-799: self.processed_songs.add(song_id), guarded by the
truthiness of song_id. -/
def markProcessed (song : Song) (st : BotState) : BotState :=
  if (pyOr song.id song.song_id).getD "" ≠ "" then
    { st with processed_songs := (pyOr song.id song.song_id).getD "" :: st.processed_songs }
  else st

/-- process_song_downloads (lines 768-996): duplicate check against the
processed-ID set first (counts a duplicate and stops), then URL extraction
(no URLs counts a skip and stops), then the song is marked processed and
only the first (highest-quality) URL is attempted; a download failure
stops with no further counter; a successful download is sent, counting a
download on success and a failure when the send raises.  The thumbnail
download, tag strings and caption content do not affect the modelled
outputs and are not tracked. -/
def process_song_downloads (env : Env) (song : Song) (st : BotState) : SongResult :=
  if (pyOr song.id song.song_id).getD "" ≠ ""
      ∧ (pyOr song.id song.song_id).getD "" ∈ st.processed_songs then
    { state := bumpDuplicates st, uploads := [], attempted := [], audit := ["DUPLICATE"] }
  else if get_download_urls song = [] then
    { state := bumpSkipped st, uploads := [], attempted := [], audit := [] }
  else if !env.dlOk ((get_download_urls song).headD "") then
    { state := bumpProcessed (markProcessed song st), uploads := [],
      attempted := [(get_download_urls song).headD ""], audit := [] }
  else if env.sendOk then
    { state := bumpDownloaded (bumpProcessed (markProcessed song st)),
      uploads := [pyOr song.id song.song_id],
      attempted := [(get_download_urls song).headD ""], audit := ["SUCCESS"] }
  else
    { state := bumpFailed (bumpProcessed (markProcessed song st)), uploads := [],
      attempted := [(get_download_urls song).headD ""], audit := ["ERROR"] }

/-- process_song_from_album (lines 1562-1635): no duplicate check and no
processed-ID bookkeeping; no URLs counts a failure, otherwise each ranked
URL is tried until one downloads; exhausting them counts a failure, a
successful download is sent, counting a download and a processed on
success and a failure when the send raises.  Failures here are only
logged: no notification goes to the logs (audit) channel. -/
def process_song_from_album (env : Env) (song : Song) (st : BotState) : SongResult :=
  if get_download_urls song = [] then
    { state := bumpFailed st, uploads := [], attempted := [], audit := [] }
  else if !(try_urls env.dlOk (get_download_urls song)).2 then
    { state := bumpFailed st, uploads := [],
      attempted := (try_urls env.dlOk (get_download_urls song)).1, audit := [] }
  else if env.sendOk then
    { state := bumpProcessed (bumpDownloaded st),
      uploads := [pyOr song.id song.songId],
      attempted := (try_urls env.dlOk (get_download_urls song)).1, audit := [] }
  else
    { state := bumpFailed st, uploads := [],
      attempted := (try_urls env.dlOk (get_download_urls song)).1, audit := [] }

/-- The per-song loop of process_album (line 1069-1074) over
process_song_downloads, with one outcome oracle per song; collects the
uploads of the whole batch. -/
def process_batch_downloads : List (Env × Song) → BotState → BotState × List (Option String)
  | [], st => (st, [])
  | (env, song) :: rest, st =>
    let r := process_song_downloads env song st
    let out := process_batch_downloads rest r.state
    (out.1, r.uploads ++ out.2)

/-- The per-song loop of the /get URL handler (lines 1517-1519) over
process_song_from_album, with one outcome oracle per song. -/
def process_batch_from_album : List (Env × Song) → BotState → BotState × List (Option String)
  | [], st => (st, [])
  | (env, song) :: rest, st =>
    let r := process_song_from_album env song st
    let out := process_batch_from_album rest r.state
    (out.1, r.uploads ++ out.2)

/-- The sum of the four outcome counters of one batch report (downloaded,
duplicates, failed, skipped). -/
def sumFour (s : Stats) : Nat :=
  s.downloaded + s.duplicates + s.failed + s.skipped

/-! ## Helper lemmas: first-seen deduplication -/

theorem dedupFirst_concat (l : List String) (x : String) :
    dedupFirst (l ++ [x]) =
      if x ∈ dedupFirst l then dedupFirst l else dedupFirst l ++ [x] := by
  simp [dedupFirst, List.foldl_append]

theorem mem_dedupFirst (l : List String) (a : String) :
    a ∈ dedupFirst l ↔ a ∈ l := by
  induction l using List.reverseRecOn with
  | nil => simp [dedupFirst]
  | append_singleton l x ih =>
    rw [dedupFirst_concat]
    by_cases hx : x ∈ dedupFirst l
    · simp only [hx, if_true, List.mem_append, List.mem_singleton, ih]
      constructor
      · exact fun h => Or.inl h
      · rintro (h | rfl)
        · exact h
        · exact ih.mp hx
    · simp [hx, ih]

theorem nodup_dedupFirst (l : List String) : (dedupFirst l).Nodup := by
  induction l using List.reverseRecOn with
  | nil => simp [dedupFirst]
  | append_singleton l x ih =>
    rw [dedupFirst_concat]
    by_cases hx : x ∈ dedupFirst l
    · simpa [hx] using ih
    · simp only [hx, if_false]
      rw [List.nodup_append]
      exact ⟨ih, List.nodup_singleton x, by simpa using hx⟩

theorem firstIdx_lt_length {l : List String} {a : String} (h : a ∈ l) :
    firstIdx l a < l.length := by
  induction l with
  | nil => cases h
  | cons x xs ih =>
    by_cases hx : x = a
    · simp [firstIdx, hx]
    · rcases List.mem_cons.mp h with rfl | hmem
      · exact absurd rfl hx
      · simpa [firstIdx, hx] using ih hmem

theorem firstIdx_append_left {l : List String} (l' : List String) {a : String} (h : a ∈ l) :
    firstIdx (l ++ l') a = firstIdx l a := by
  induction l with
  | nil => cases h
  | cons x xs ih =>
    by_cases hx : x = a
    · simp [firstIdx, hx]
    · rcases List.mem_cons.mp h with rfl | hmem
      · exact absurd rfl hx
      · simp [firstIdx, hx, ih hmem]

theorem firstIdx_append_self {l : List String} {x : String} (h : x ∉ l) :
    firstIdx (l ++ [x]) x = l.length := by
  induction l with
  | nil => simp [firstIdx]
  | cons y ys ih =>
    have hyx : y ≠ x := fun hyx => h (hyx ▸ List.mem_cons_self y ys)
    have hx : x ∉ ys := fun hmem => h (List.mem_cons_of_mem y hmem)
    simp [firstIdx, hyx, ih hx]

theorem pairwise_firstIdx_dedupFirst (l : List String) :
    (dedupFirst l).Pairwise (fun a b => firstIdx l a < firstIdx l b) := by
  induction l using List.reverseRecOn with
  | nil => simp [dedupFirst]
  | append_singleton l x ih =>
    rw [dedupFirst_concat]
    by_cases hx : x ∈ dedupFirst l
    · simp only [hx, if_true]
      refine ih.imp_of_mem ?_
      intro a b ha hb hab
      rw [firstIdx_append_left [x] ((mem_dedupFirst l a).mp ha),
        firstIdx_append_left [x] ((mem_dedupFirst l b).mp hb)]
      exact hab
    · simp only [hx, if_false]
      rw [List.pairwise_append]
      refine ⟨?_, List.pairwise_singleton _ x, ?_⟩
      · refine ih.imp_of_mem ?_
        intro a b ha hb hab
        rw [firstIdx_append_left [x] ((mem_dedupFirst l a).mp ha),
          firstIdx_append_left [x] ((mem_dedupFirst l b).mp hb)]
        exact hab
      · intro a ha b hb
        rcases List.mem_singleton.mp hb with rfl
        have hal : a ∈ l := (mem_dedupFirst l a).mp ha
        have hxl : b ∉ l := fun hmem => hx ((mem_dedupFirst l b).mpr hmem)
        rw [firstIdx_append_left [b] hal, firstIdx_append_self hxl]
        exact firstIdx_lt_length hal

/-! ## Helper lemmas: URL validation and quality sorting -/

theorem mem_filter_valid_urls :
    ∀ (l : List PyVal) (seen : List String) (s : String),
      s ∈ filter_valid_urls l seen → strStarts s "http" = true ∧ s ∉ seen
  | [], _, _, h => by cases h
  | .vStr u :: rest, seen, s, h => by
    by_cases hc : u ≠ "" && strStarts u "http" && !seen.contains u
    · rw [filter_valid_urls, if_pos hc] at h
      rcases List.mem_cons.mp h with rfl | hmem
      · refine ⟨?_, ?_⟩
        · simp only [Bool.and_eq_true, Bool.not_eq_true'] at hc
          exact hc.1.2
        · simp only [Bool.and_eq_true, Bool.not_eq_true'] at hc
          intro habs
          exact absurd (List.elem_iff.mpr habs) (by simpa using hc.2)
      · have := mem_filter_valid_urls rest (u :: seen) s hmem
        exact ⟨this.1, fun habs => this.2 (List.mem_cons_of_mem u habs)⟩
    · rw [filter_valid_urls, if_neg hc] at h
      exact mem_filter_valid_urls rest seen s h
  | .vList xs :: rest, seen, s, h => by
    rw [filter_valid_urls] at h
    exact mem_filter_valid_urls rest seen s h
  | .vOther t :: rest, seen, s, h => by
    rw [filter_valid_urls] at h
    exact mem_filter_valid_urls rest seen s h

theorem nodup_filter_valid_urls :
    ∀ (l : List PyVal) (seen : List String), (filter_valid_urls l seen).Nodup
  | [], _ => List.nodup_nil
  | .vStr u :: rest, seen => by
    by_cases hc : u ≠ "" && strStarts u "http" && !seen.contains u
    · rw [filter_valid_urls, if_pos hc]
      refine List.nodup_cons.mpr ⟨?_, nodup_filter_valid_urls rest (u :: seen)⟩
      intro habs
      exact (mem_filter_valid_urls rest (u :: seen) u habs).2 (List.mem_cons_self u seen)
    · rw [filter_valid_urls, if_neg hc]
      exact nodup_filter_valid_urls rest seen
  | .vList xs :: rest, seen => by
    rw [filter_valid_urls]
    exact nodup_filter_valid_urls rest seen
  | .vOther t :: rest, seen => by
    rw [filter_valid_urls]
    exact nodup_filter_valid_urls rest seen

theorem sort_urls_perm (urls : List String) :
    List.Perm (sort_urls_by_quality urls) urls :=
  List.perm_insertionSort qualityGE urls

theorem sort_urls_sorted (urls : List String) :
    (sort_urls_by_quality urls).Pairwise
      (fun a b => get_quality_score b ≤ get_quality_score a) :=
  List.sorted_insertionSort qualityGE urls

theorem get_download_urls_nodup (song : Song) : (get_download_urls song).Nodup :=
  (sort_urls_perm (filter_valid_urls (collected_urls song) [])).symm.nodup
    (nodup_filter_valid_urls (collected_urls song) [])

theorem get_download_urls_http (song : Song) :
    ∀ u ∈ get_download_urls song, strStarts u "http" = true := by
  intro u hu
  have hmem : u ∈ filter_valid_urls (collected_urls song) [] :=
    (sort_urls_perm (filter_valid_urls (collected_urls song) [])).mem_iff.mp hu
  exact (mem_filter_valid_urls _ _ u hmem).1

theorem get_download_urls_sorted (song : Song) :
    (get_download_urls song).Pairwise
      (fun a b => get_quality_score b ≤ get_quality_score a) :=
  sort_urls_sorted (filter_valid_urls (collected_urls song) [])

/-! ## Helper lemmas: the URL attempt loop -/

theorem try_urls_split (dlOk : String → Bool) :
    ∀ l : List String, ∃ rest, l = (try_urls dlOk l).1 ++ rest
  | [] => ⟨[], rfl⟩
  | u :: us => by
    by_cases h : dlOk u
    · exact ⟨us, by simp [try_urls, h]⟩
    · obtain ⟨rest, hrest⟩ := try_urls_split dlOk us
      exact ⟨rest, by simp [try_urls, h]; exact hrest⟩

theorem try_urls_length (dlOk : String → Bool) :
    ∀ l : List String, (try_urls dlOk l).1.length ≤ l.length
  | [] => le_refl _
  | u :: us => by
    by_cases h : dlOk u
    · simp [try_urls, h]
    · simpa [try_urls, h, Nat.succ_le_succ_iff] using try_urls_length dlOk us

theorem try_urls_dropLast_fail (dlOk : String → Bool) :
    ∀ l : List String, ∀ u ∈ (try_urls dlOk l).1.dropLast, dlOk u = false
  | [] => by intro u hu; cases hu
  | v :: us => by
    intro u hu
    by_cases h : dlOk v
    · simp [try_urls, h] at hu
    · rw [try_urls, if_neg h] at hu
      rcases hts : (try_urls dlOk us).1 with _ | ⟨w, ws⟩
      · rw [hts] at hu
        simp at hu
      · rw [hts] at hu
        rcases List.mem_cons.mp (by simpa [List.dropLast_cons₂] using hu) with rfl | hmem
        · simpa using h
        · exact try_urls_dropLast_fail dlOk us u (by rw [hts]; exact hmem)

theorem try_urls_all_fail (dlOk : String → Bool) :
    ∀ l : List String, (∀ u ∈ l, dlOk u = false) → try_urls dlOk l = (l, false)
  | [], _ => rfl
  | v :: us, h => by
    have hv : dlOk v = false := h v (List.mem_cons_self v us)
    have hus : try_urls dlOk us = (us, false) :=
      try_urls_all_fail dlOk us fun u hu => h u (List.mem_cons_of_mem v hu)
    simp [try_urls, hv, hus]

theorem try_urls_second (dlOk : String → Bool) (u₀ u₁ : String) (rest : List String)
    (h₀ : dlOk u₀ = false) (h₁ : dlOk u₁ = true) :
    try_urls dlOk (u₀ :: u₁ :: rest) = ([u₀, u₁], true) := by
  simp [try_urls, h₀, h₁]

theorem try_urls_success (dlOk : String → Bool) :
    ∀ l : List String, (try_urls dlOk l).2 = true →
      ∃ u, (try_urls dlOk l).1.getLast? = some u ∧ dlOk u = true
  | [], h => by simp [try_urls] at h
  | v :: us, h => by
    by_cases hv : dlOk v
    · exact ⟨v, by simp [try_urls, hv], hv⟩
    · rw [try_urls, if_neg hv] at h ⊢
      obtain ⟨u, hlast, hok⟩ := try_urls_success dlOk us h
      refine ⟨u, ?_, hok⟩
      rcases hts : (try_urls dlOk us).1 with _ | ⟨w, ws⟩
      · rw [hts] at hlast
        simp at hlast
      · rw [hts] at hlast
        simpa [List.getLast?_cons_cons] using hlast

/-! ## Helper lemmas: the state steps -/

theorem markProcessed_stats (song : Song) (st : BotState) :
    (markProcessed song st).stats = st.stats := by
  rw [markProcessed]
  split_ifs <;> rfl

theorem markProcessed_mono (song : Song) (st : BotState) {a : String}
    (h : a ∈ st.processed_songs) : a ∈ (markProcessed song st).processed_songs := by
  rw [markProcessed]
  split_ifs <;> simp [h]

/-! ## Helper lemmas: process_song_downloads -/

theorem psd_dup_eq (env : Env) (song : Song) (st : BotState)
    (hid : (pyOr song.id song.song_id).getD "" ≠ "")
    (hmem : (pyOr song.id song.song_id).getD "" ∈ st.processed_songs) :
    process_song_downloads env song st =
      { state := bumpDuplicates st, uploads := [], attempted := [], audit := ["DUPLICATE"] } := by
  rw [process_song_downloads, if_pos ⟨hid, hmem⟩]

theorem psd_sumFour (env : Env) (song : Song) (st : BotState) :
    sumFour (process_song_downloads env song st).state.stats ≤ sumFour st.stats + 1 := by
  rw [process_song_downloads]
  split_ifs <;>
    simp [bumpDuplicates, bumpSkipped, bumpFailed, bumpDownloaded, bumpProcessed,
      markProcessed_stats, sumFour] <;>
    omega

theorem psd_mono (env : Env) (song : Song) (st : BotState) {a : String}
    (h : a ∈ st.processed_songs) :
    a ∈ (process_song_downloads env song st).state.processed_songs := by
  rw [process_song_downloads]
  split_ifs <;>
    simp only [bumpDuplicates, bumpSkipped, bumpFailed, bumpDownloaded, bumpProcessed] <;>
    first
      | exact h
      | exact markProcessed_mono song st h

theorem psd_uploads_sub (env : Env) (song : Song) (st : BotState) :
    (process_song_downloads env song st).uploads = [] ∨
      (process_song_downloads env song st).uploads = [pyOr song.id song.song_id] := by
  rw [process_song_downloads]
  split_ifs <;> simp

theorem psd_upload_sid (env : Env) (song : Song) (st : BotState) {sid : String}
    (hmem : some sid ∈ (process_song_downloads env song st).uploads) (hne : sid ≠ "") :
    sid ∉ st.processed_songs ∧
      sid ∈ (process_song_downloads env song st).state.processed_songs := by
  rw [process_song_downloads] at hmem ⊢
  by_cases hdup : (pyOr song.id song.song_id).getD "" ≠ "" ∧
      (pyOr song.id song.song_id).getD "" ∈ st.processed_songs
  · rw [if_pos hdup] at hmem
    cases hmem
  · rw [if_neg hdup] at hmem ⊢
    by_cases hurls : get_download_urls song = []
    · rw [if_pos hurls] at hmem
      cases hmem
    · rw [if_neg hurls] at hmem ⊢
      by_cases hdl : !env.dlOk ((get_download_urls song).headD "")
      · rw [if_pos hdl] at hmem
        cases hmem
      · rw [if_neg hdl] at hmem ⊢
        by_cases hsend : env.sendOk
        · rw [if_pos hsend] at hmem ⊢
          have hsid : pyOr song.id song.song_id = some sid := by
            have h1 : some sid = pyOr song.id song.song_id := by simpa using hmem
            exact h1.symm
          have htr : (pyOr song.id song.song_id).getD "" ≠ "" := by
            rw [hsid]
            simpa using hne
          constructor
          · intro habs
            exact hdup ⟨htr, by rw [hsid]; simpa using habs⟩
          · simp [bumpDownloaded, bumpProcessed, markProcessed, htr, hsid, hne]
        · rw [if_neg hsend] at hmem
          cases hmem

/-! ## Helper lemmas: the batch loop over process_song_downloads -/

theorem batch_downloads_count (sid : String) (hne : sid ≠ "") :
    ∀ (items : List (Env × Song)) (st : BotState),
      (process_batch_downloads items st).2.count (some sid)
        + (if sid ∈ st.processed_songs then 1 else 0) ≤ 1
  | [], st => by
    rw [process_batch_downloads]
    simp only [List.count_nil]
    split_ifs <;> omega
  | (env, song) :: rest, st => by
    rw [process_batch_downloads]
    simp only [List.count_append]
    have ih := batch_downloads_count sid hne rest (process_song_downloads env song st).state
    by_cases hst : sid ∈ st.processed_songs
    · have hz : (process_song_downloads env song st).uploads.count (some sid) = 0 := by
        apply List.count_eq_zero.mpr
        intro habs
        exact (psd_upload_sid env song st habs hne).1 hst
      have hst2 : sid ∈ (process_song_downloads env song st).state.processed_songs :=
        psd_mono env song st hst
      rw [if_pos hst2] at ih
      rw [if_pos hst, hz]
      omega
    · rw [if_neg hst]
      by_cases hup : some sid ∈ (process_song_downloads env song st).uploads
      · have hone : (process_song_downloads env song st).uploads.count (some sid) = 1 := by
          rcases psd_uploads_sub env song st with hnil | hsingle
          · rw [hnil] at hup
            cases hup
          · have heq := List.mem_singleton.mp (hsingle ▸ hup)
            rw [hsingle, ← heq]
            simp
        have hst2 : sid ∈ (process_song_downloads env song st).state.processed_songs :=
          (psd_upload_sid env song st hup hne).2
        rw [if_pos hst2] at ih
        omega
      · have hz : (process_song_downloads env song st).uploads.count (some sid) = 0 :=
          List.count_eq_zero.mpr hup
        rw [hz]
        split_ifs at ih <;> omega

theorem batch_downloads_sumFour :
    ∀ (items : List (Env × Song)) (st : BotState),
      sumFour (process_batch_downloads items st).1.stats ≤ sumFour st.stats + items.length
  | [], st => by
    rw [process_batch_downloads]
    simp
  | (env, song) :: rest, st => by
    rw [process_batch_downloads]
    have h1 := psd_sumFour env song st
    have h2 := batch_downloads_sumFour rest (process_song_downloads env song st).state
    simp only [List.length_cons]
    omega

/-! ## Helper lemmas: process_song_from_album -/

theorem psfa_sumFour (env : Env) (song : Song) (st : BotState) :
    sumFour (process_song_from_album env song st).state.stats ≤ sumFour st.stats + 1 := by
  rw [process_song_from_album]
  split_ifs <;>
    simp [bumpFailed, bumpDownloaded, bumpProcessed, sumFour] <;>
    omega

theorem psfa_attempted (env : Env) (song : Song) (st : BotState) :
    (process_song_from_album env song st).attempted =
      (try_urls env.dlOk (get_download_urls song)).1 := by
  rw [process_song_from_album]
  split_ifs with h1 <;> first | (rw [h1]; rfl) | rfl

theorem psfa_audit (env : Env) (song : Song) (st : BotState) :
    (process_song_from_album env song st).audit = [] := by
  rw [process_song_from_album]
  split_ifs <;> rfl

theorem psfa_all_fail (env : Env) (song : Song) (st : BotState)
    (hfail : ∀ u ∈ get_download_urls song, env.dlOk u = false)
    (hne : get_download_urls song ≠ []) :
    process_song_from_album env song st =
      { state := bumpFailed st, uploads := [],
        attempted := get_download_urls song, audit := [] } := by
  have htry : try_urls env.dlOk (get_download_urls song) = (get_download_urls song, false) :=
    try_urls_all_fail env.dlOk (get_download_urls song) hfail
  rw [process_song_from_album, if_neg hne, if_pos (by rw [htry]; rfl)]
  rw [htry]

theorem batch_from_album_sumFour :
    ∀ (items : List (Env × Song)) (st : BotState),
      sumFour (process_batch_from_album items st).1.stats ≤ sumFour st.stats + items.length
  | [], st => by
    rw [process_batch_from_album]
    simp
  | (env, song) :: rest, st => by
    rw [process_batch_from_album]
    have h1 := psfa_sumFour env song st
    have h2 := batch_from_album_sumFour rest (process_song_from_album env song st).state
    simp only [List.length_cons]
    omega

theorem psd_attempted_sub (env : Env) (song : Song) (st : BotState) :
    (process_song_downloads env song st).attempted = [] ∨
      ((process_song_downloads env song st).attempted = [(get_download_urls song).headD ""] ∧
        get_download_urls song ≠ []) := by
  rw [process_song_downloads]
  split_ifs <;> simp_all

theorem psd_download_fail_eq (env : Env) (song : Song) (st : BotState)
    (hdup : ¬((pyOr song.id song.song_id).getD "" ≠ ""
      ∧ (pyOr song.id song.song_id).getD "" ∈ st.processed_songs))
    (hurls : get_download_urls song ≠ [])
    (hdl : env.dlOk ((get_download_urls song).headD "") = false) :
    process_song_downloads env song st =
      { state := bumpProcessed (markProcessed song st), uploads := [],
        attempted := [(get_download_urls song).headD ""], audit := [] } := by
  rw [process_song_downloads, if_neg hdup, if_neg hurls, if_pos (by rw [hdl]; rfl)]

theorem psfa_second_recovery (env : Env) (song : Song) (st : BotState)
    (u₀ u₁ : String) (rest : List String)
    (hurls : get_download_urls song = u₀ :: u₁ :: rest)
    (h₀ : env.dlOk u₀ = false) (h₁ : env.dlOk u₁ = true) :
    (process_song_from_album env song st).attempted = [u₀, u₁] := by
  rw [psfa_attempted, hurls, try_urls_second env.dlOk u₀ u₁ rest h₀ h₁]

/-! ## The claims -/

/-- Claim C1 (amended): in the ID/command/text/file batch paths, which run
process_song_downloads, a song whose identifier is already in the
processed-ID set is not uploaded and the duplicates counter is incremented
exactly once for that repeat occurrence; consequently, over a whole such
batch every nonempty identifier is uploaded at most once.  (The /get
URL-file batch path runs process_song_from_album, which performs no
duplicate suppression; see the counterexample.) -/
theorem claim_C1_amended :
    (∀ (env : Env) (song : Song) (st : BotState),
      (pyOr song.id song.song_id).getD "" ≠ "" →
      (pyOr song.id song.song_id).getD "" ∈ st.processed_songs →
      process_song_downloads env song st =
        { state := bumpDuplicates st, uploads := [], attempted := [],
          audit := ["DUPLICATE"] }) ∧
    (∀ (items : List (Env × Song)) (st : BotState) (sid : String), sid ≠ "" →
      (process_batch_downloads items st).2.count (some sid)
        + (if sid ∈ st.processed_songs then 1 else 0) ≤ 1) :=
  ⟨psd_dup_eq, fun items st sid hne => batch_downloads_count sid hne items st⟩

/-- Claim C1 witness: a concrete repeat (identifier x already in the set)
is not uploaded and counts exactly one duplicate. -/
theorem claim_C1_witness :
    process_song_downloads { dlOk := fun _ => true, sendOk := true }
        { id := some "x", downloadUrl := some (.vStr "http://a.mp3") }
        { processed_songs := ["x"], stats := {} } =
      { state := bumpDuplicates { processed_songs := ["x"], stats := {} },
        uploads := [], attempted := [], audit := ["DUPLICATE"] } :=
  claim_C1_amended.1
    { dlOk := fun _ => true, sendOk := true }
    { id := some "x", downloadUrl := some (.vStr "http://a.mp3") }
    { processed_songs := ["x"], stats := {} }
    (by decide) (by decide)

/-- Claim C1 counterexample: in the /get URL-file batch path the same song
(identifier x), processed twice in one batch that starts right after a
clear of the processed-ID set, is uploaded twice and the duplicates counter
stays at zero - the claim fails as stated for that batch path. -/
theorem claim_C1_counterexample :
    (process_batch_from_album
      [({ dlOk := fun _ => true, sendOk := true },
        { id := some "x", downloadUrl := some (.vStr "http://a.mp3") }),
       ({ dlOk := fun _ => true, sendOk := true },
        { id := some "x", downloadUrl := some (.vStr "http://a.mp3") })] {}).2
      = [some "x", some "x"] ∧
    (process_batch_from_album
      [({ dlOk := fun _ => true, sendOk := true },
        { id := some "x", downloadUrl := some (.vStr "http://a.mp3") }),
       ({ dlOk := fun _ => true, sendOk := true },
        { id := some "x", downloadUrl := some (.vStr "http://a.mp3") })] {}).1.stats.duplicates
      = 0 :=
  ⟨rfl, rfl⟩

/-- Claim C2: for a song with N ranked candidate URLs the pipeline attempts
at most N downloads, in exactly the order the quality sort produced
(the attempted list is an initial segment of the ranked list), it stops at
the first success (every attempted URL before the last one failed), and
the quality score is non-increasing across the attempted order; the same
bounds hold for process_song_downloads, which attempts at most the first
ranked URL. -/
theorem claim_C2 (env : Env) (song : Song) (st : BotState) :
    ((process_song_from_album env song st).attempted.length
        ≤ (get_download_urls song).length ∧
      (∃ rest, get_download_urls song
        = (process_song_from_album env song st).attempted ++ rest) ∧
      (∀ u ∈ (process_song_from_album env song st).attempted.dropLast,
        env.dlOk u = false) ∧
      (process_song_from_album env song st).attempted.Pairwise
        (fun a b => get_quality_score b ≤ get_quality_score a)) ∧
    ((process_song_downloads env song st).attempted.length
        ≤ (get_download_urls song).length ∧
      (∃ rest, get_download_urls song
        = (process_song_downloads env song st).attempted ++ rest) ∧
      (process_song_downloads env song st).attempted.Pairwise
        (fun a b => get_quality_score b ≤ get_quality_score a)) := by
  have hatt := psfa_attempted env song st
  refine ⟨⟨?_, ?_, ?_, ?_⟩, ?_, ?_, ?_⟩
  · rw [hatt]
    exact try_urls_length env.dlOk (get_download_urls song)
  · rw [hatt]
    exact try_urls_split env.dlOk (get_download_urls song)
  · rw [hatt]
    exact try_urls_dropLast_fail env.dlOk (get_download_urls song)
  · rw [hatt]
    obtain ⟨rest, hrest⟩ := try_urls_split env.dlOk (get_download_urls song)
    refine (get_download_urls_sorted song).sublist ?_
    conv_rhs => rw [hrest]
    exact List.sublist_append_left _ _
  · rcases psd_attempted_sub env song st with h | ⟨h, hne⟩
    · simp [h]
    · rw [h, List.length_singleton]
      exact Nat.succ_le_of_lt (List.length_pos.mpr hne)
  · rcases psd_attempted_sub env song st with h | ⟨h, hne⟩
    · exact ⟨get_download_urls song, by rw [h]; rfl⟩
    · rcases hu : get_download_urls song with _ | ⟨x, xs⟩
      · exact absurd hu hne
      · exact ⟨xs, by rw [h, hu]; rfl⟩
  · rcases psd_attempted_sub env song st with h | ⟨h, _⟩ <;> rw [h] <;> simp

/-- Claim C2 witness: the bounds instantiated at a concrete two-URL song
whose first download fails. -/
theorem claim_C2_witness :
    (process_song_from_album { dlOk := fun u => u = "http://b128.mp3", sendOk := true }
        { downloadUrl := some (.vList [.vStr "http://a320.mp3", .vStr "http://b128.mp3"]) }
        {}).attempted.length
      ≤ (get_download_urls
          { downloadUrl :=
              some (.vList [.vStr "http://a320.mp3", .vStr "http://b128.mp3"]) }).length :=
  (claim_C2 { dlOk := fun u => u = "http://b128.mp3", sendOk := true }
    { downloadUrl := some (.vList [.vStr "http://a320.mp3", .vStr "http://b128.mp3"]) }
    {}).1.1

/-- Claim C3 (amended): in process_song_from_album a download error on one
URL is recovered by attempting the next ranked URL, and when every ranked
URL has failed the failed counter is incremented by exactly one - but the
failure is only logged, no notification is sent to the logs (audit)
channel; in process_song_downloads only the highest-ranked URL is ever
attempted, and its download failure stops the song with no counter change
among the four outcome counters and no audit notification. -/
theorem claim_C3_amended :
    (∀ (env : Env) (song : Song) (st : BotState),
      (∀ u ∈ get_download_urls song, env.dlOk u = false) →
      get_download_urls song ≠ [] →
      process_song_from_album env song st =
        { state := bumpFailed st, uploads := [],
          attempted := get_download_urls song, audit := [] }) ∧
    (∀ (env : Env) (song : Song) (st : BotState) (u₀ u₁ : String) (rest : List String),
      get_download_urls song = u₀ :: u₁ :: rest →
      env.dlOk u₀ = false → env.dlOk u₁ = true →
      (process_song_from_album env song st).attempted = [u₀, u₁]) ∧
    (∀ (env : Env) (song : Song) (st : BotState),
      ¬((pyOr song.id song.song_id).getD "" ≠ ""
        ∧ (pyOr song.id song.song_id).getD "" ∈ st.processed_songs) →
      get_download_urls song ≠ [] →
      env.dlOk ((get_download_urls song).headD "") = false →
      process_song_downloads env song st =
        { state := bumpProcessed (markProcessed song st), uploads := [],
          attempted := [(get_download_urls song).headD ""], audit := [] }) :=
  ⟨psfa_all_fail, psfa_second_recovery, psd_download_fail_eq⟩

/-- Claim C3 witness: the three amended statements instantiated at a
concrete two-URL song. -/
theorem claim_C3_witness :
    process_song_from_album { dlOk := fun _ => false, sendOk := true }
        { downloadUrl := some (.vList [.vStr "http://a320.mp3", .vStr "http://b128.mp3"]) }
        {} =
      { state := bumpFailed {}, uploads := [],
        attempted := get_download_urls
          { downloadUrl := some (.vList [.vStr "http://a320.mp3", .vStr "http://b128.mp3"]) },
        audit := [] } :=
  claim_C3_amended.1 { dlOk := fun _ => false, sendOk := true }
    { downloadUrl := some (.vList [.vStr "http://a320.mp3", .vStr "http://b128.mp3"]) }
    {} (by decide) (by decide)

/-- Claim C3 counterexample: a song with two ranked URLs processed by
process_song_downloads (one of the two symbols the claim cites) whose
first download fails: the next ranked URL is never attempted, the failed
counter is not incremented, and nothing is reported to the audit channel -
all three parts of the claim fail as stated on this path. -/
theorem claim_C3_counterexample :
    (process_song_downloads { dlOk := fun _ => false, sendOk := true }
        { downloadUrl := some (.vList [.vStr "http://a320.mp3", .vStr "http://b128.mp3"]) }
        {}).attempted = ["http://a320.mp3"] ∧
    (process_song_downloads { dlOk := fun _ => false, sendOk := true }
        { downloadUrl := some (.vList [.vStr "http://a320.mp3", .vStr "http://b128.mp3"]) }
        {}).state.stats.failed = 0 ∧
    (process_song_downloads { dlOk := fun _ => false, sendOk := true }
        { downloadUrl := some (.vList [.vStr "http://a320.mp3", .vStr "http://b128.mp3"]) }
        {}).audit = [] :=
  ⟨rfl, rfl, rfl⟩

/-- Claim C4 (amended): when the HTTP response carries no content-length
header, the 50 MB cap is not enforced at all: the body loop writes every
received chunk, so the bytes written equal the whole received body,
however large - there is no mid-stream abort. -/
theorem claim_C4_amended (resp : HttpResponse) (hok : resp.ok = true)
    (hlen : resp.contentLength = none) :
    download_file resp = (true, resp.chunks.sum) := by
  rw [download_file, hok, hlen]
  simp

/-- Claim C4 witness: the amended statement instantiated at a concrete
headerless response. -/
theorem claim_C4_witness :
    download_file { ok := true, contentLength := none, chunks := [8192, 100] } = (true, 8292) :=
  claim_C4_amended { ok := true, contentLength := none, chunks := [8192, 100] } rfl rfl

/-- Claim C4 counterexample: a headerless response of 6402 chunks of 8192
bytes (52445184 bytes in total) downloads successfully with every byte
written, exceeding the 50 MB cap plus one chunk (52436992 bytes) - the
claimed mid-stream abort does not exist. -/
theorem claim_C4_counterexample :
    download_file { ok := true, contentLength := none, chunks := List.replicate 6402 8192 }
        = (true, 52445184) ∧
      max_file_size + 8192 < 52445184 := by
  constructor
  · rw [download_file]
    norm_num [List.sum_replicate]
  · norm_num [max_file_size]

/-- Claim C5: a response whose declared content-length exceeds the 50 MB
cap is rejected before any body byte is written: download_file reports
failure with zero bytes written to the target file. -/
theorem claim_C5 (resp : HttpResponse) (n : Nat)
    (hlen : resp.contentLength = some n) (hbig : max_file_size < n) :
    download_file resp = (false, 0) := by
  rw [download_file, hlen]
  cases hok : resp.ok
  · simp
  · simp [hbig]

/-- Claim C5 witness: the statement instantiated at a response declaring
one byte over the cap. -/
theorem claim_C5_witness :
    download_file { ok := true, contentLength := some 52428801, chunks := [1, 2] }
      = (false, 0) :=
  claim_C5 { ok := true, contentLength := some 52428801, chunks := [1, 2] } 52428801
    rfl (by norm_num [max_file_size])

/-- Claim C6: extract_ids_from_text returns each distinct matching
identifier at most once (the result has no duplicates, and its members are
exactly the identifiers matched line by line), and the returned identifiers
appear in the order of their first match in the text (consecutive results
are ordered by first occurrence in the pre-deduplication match list). -/
theorem claim_C6 (text : String) :
    (extract_ids_from_text text).Nodup ∧
    (∀ a, a ∈ extract_ids_from_text text ↔ a ∈ raw_extracted_ids text) ∧
    (extract_ids_from_text text).Pairwise
      (fun a b => firstIdx (raw_extracted_ids text) a
        < firstIdx (raw_extracted_ids text) b) :=
  ⟨nodup_dedupFirst (raw_extracted_ids text),
    fun a => mem_dedupFirst (raw_extracted_ids text) a,
    pairwise_firstIdx_dedupFirst (raw_extracted_ids text)⟩

/-- Claim C6 witness: deduplication observed on a concrete text repeating
one identifier. -/
theorem claim_C6_witness :
    (extract_ids_from_text "s-iNUkwV\n55666576\ns-iNUkwV").Nodup :=
  (claim_C6 "s-iNUkwV\n55666576\ns-iNUkwV").1

/-- Claim C7: is_album_id holds exactly for all-digit identifiers of length
at least six; any identifier not of that shape routes to song resolution,
55666576 routes to album resolution and s-iNUkwV to song resolution. -/
theorem claim_C7 :
    (∀ s : String, is_album_id s = true ↔ (6 ≤ s.length ∧ ∀ c ∈ s.toList, c.isDigit = true)) ∧
    (∀ s : String, is_album_id s = false → process_id_route s = Route.music) ∧
    process_id_route "55666576" = Route.album ∧
    process_id_route "s-iNUkwV" = Route.music := by
  refine ⟨?_, ?_, by decide, by decide⟩
  · intro s
    have hlen : s.toList.length = s.length := rfl
    simp [is_album_id, List.all_eq_true, hlen]
  · intro s h
    simp [process_id_route, h]

/-- Claim C7 witness: the routing fallback instantiated at a concrete short
numeric identifier. -/
theorem claim_C7_witness : process_id_route "12345" = Route.music :=
  claim_C7.2.1 "12345" (by decide)

/-- Claim C8: each processed song increments at most one of the four
outcome counters (downloaded, duplicates, failed, skipped) and by at most
one, in both song-processing paths; hence over a whole batch the growth of
their sum never exceeds the number of songs enumerated in that batch. -/
theorem claim_C8 :
    (∀ (env : Env) (song : Song) (st : BotState),
      sumFour (process_song_downloads env song st).state.stats ≤ sumFour st.stats + 1) ∧
    (∀ (env : Env) (song : Song) (st : BotState),
      sumFour (process_song_from_album env song st).state.stats ≤ sumFour st.stats + 1) ∧
    (∀ (items : List (Env × Song)) (st : BotState),
      sumFour (process_batch_downloads items st).1.stats
        ≤ sumFour st.stats + items.length) ∧
    (∀ (items : List (Env × Song)) (st : BotState),
      sumFour (process_batch_from_album items st).1.stats
        ≤ sumFour st.stats + items.length) :=
  ⟨psd_sumFour, psfa_sumFour, batch_downloads_sumFour, batch_from_album_sumFour⟩

/-- Claim C8 witness: the batch bound instantiated at a concrete two-song
batch. -/
theorem claim_C8_witness :
    sumFour (process_batch_downloads
        [({ dlOk := fun _ => true, sendOk := true },
          { id := some "x", downloadUrl := some (.vStr "http://a.mp3") }),
         ({ dlOk := fun _ => true, sendOk := true },
          { id := some "x", downloadUrl := some (.vStr "http://a.mp3") })] {}).1.stats
      ≤ sumFour ({} : BotState).stats + 2 :=
  claim_C8.2.2.1
    [({ dlOk := fun _ => true, sendOk := true },
      { id := some "x", downloadUrl := some (.vStr "http://a.mp3") }),
     ({ dlOk := fun _ => true, sendOk := true },
      { id := some "x", downloadUrl := some (.vStr "http://a.mp3") })] {}

/-- Claim C9: the caption built from musicId s-iNUkwV, albumId 14101426 and
year 2020 renders exactly the three labelled lines in the fixed order
Music ID, Album, Year; and for every subset of those three fields the
caption is exactly the newline-join of the labelled lines of the present
fields - a missing field is omitted entirely, leaving no empty line. -/
theorem claim_C9 :
    format_caption
        { musicId := some "s-iNUkwV", albumId := some "14101426", year := some 2020 } =
      "🆔 Music ID: s-iNUkwV\n💽 Album: 14101426\n📅 Year: 2020" ∧
    ∀ b₁ b₂ b₃ : Bool,
      format_caption
          { musicId := if b₁ then some "s-iNUkwV" else none,
            albumId := if b₂ then some "14101426" else none,
            year := if b₃ then some 2020 else none } =
        String.intercalate "\n"
          ((if b₁ then ["🆔 Music ID: s-iNUkwV"] else [])
            ++ (if b₂ then ["💽 Album: 14101426"] else [])
            ++ (if b₃ then ["📅 Year: 2020"] else [])) := by
  refine ⟨by decide, ?_⟩
  intro b₁ b₂ b₃
  cases b₁ <;> cases b₂ <;> cases b₃ <;> decide

/-- Claim C9 witness: the omission statement instantiated with the album
field missing. -/
theorem claim_C9_witness :
    format_caption { musicId := some "s-iNUkwV", albumId := none, year := some 2020 } =
      String.intercalate "\n" ["🆔 Music ID: s-iNUkwV", "📅 Year: 2020"] := by
  have h := claim_C9.2 true false true
  simpa using h

/-- Claim C10: whatever upstream shape supplies the URLs, every URL that
get_download_urls returns starts with http and appears at most once in the
returned list. -/
theorem claim_C10 (song : Song) :
    (get_download_urls song).Nodup ∧
      ∀ u ∈ get_download_urls song, strStarts u "http" = true :=
  ⟨get_download_urls_nodup song, get_download_urls_http song⟩

/-- Claim C10 witness: no-duplicates observed at a concrete song mixing
all the upstream URL shapes. -/
theorem claim_C10_witness :
    (get_download_urls
      { downloadUrl := some (.vList [.vStr "http://a.mp3", .vStr "http://a.mp3", .vOther true]),
        kbps320 := some (.vStr "http://b.m4a"),
        media_url := some (.vStr "http://c.mp3") }).Nodup :=
  (claim_C10
    { downloadUrl := some (.vList [.vStr "http://a.mp3", .vStr "http://a.mp3", .vOther true]),
      kbps320 := some (.vStr "http://b.m4a"),
      media_url := some (.vStr "http://c.mp3") }).1
